import Mathlib

/-!
# Verification of `monitor.js` (network presence monitor)

Shallow embedding of the single source file `src/monitor.js`.

The program repeatedly: runs an external `nmap` scan, parses its XML output
(via `xml2js`, which represents an element's children as arrays and its
attributes as a `$` object), normalizes the parse tree into a `Set` of host
identity strings (`getActiveHosts`), diffs that set against the module-level
`previousHosts`, logs changes, sends desktop notifications via `notify-send`
(skipped on the first scan), and commits the new set as `previousHosts`
(`checkForChanges`).  `main` runs one cycle immediately and then schedules
`checkForChanges` on a fixed-rate `setInterval` timer.

Modelling decisions:
* JS `Set<string>` is modelled as a duplicate-free `List String` in insertion
  order; `Set.add` is `setAdd`, `Set.has` is `List.contains`.
* The xml2js parse tree is modelled structurally: every place the JS code
  guards with a truthiness check (`host && host.status && ...`) is an
  `Option`; a field the code arrayifies with `Array.isArray(x) ? x : [x]`
  is a sum of "array" and "single value" (`HostField`, `AddrField`).
* A JS `undefined` interpolated into a template literal prints `"undefined"`;
  `jstr` reproduces this.  JS `x || 'Unknown'` treats the empty string as
  falsy; `jsOr` reproduces this.
* The effectful part of `getActiveHosts` (exec, file read, XML parse) is
  collapsed into a `ScanOutcome`: `failure` covers every throw inside the
  `try` (invocation error, non-zero exit, unreadable file, parse error) and
  `success r` carries the parse tree.  The `catch` branch returns the empty
  set and logs, exactly as lines 74–78 of the source.
* `checkForChanges` is a pure function from (previous state, scan outcome,
  notifier behaviour) to a `CycleResult` recording the log lines, error
  lines, the notifications attempted and actually delivered, and the new
  committed state.  `NotifierBehavior` says whether each `notify-send`
  invocation would succeed if attempted; both sends sit inside one
  `try`/`catch` in the source (lines 120–138), which the model mirrors.
* The `setInterval` scheduling of `main` (lines 148–155) is modelled on a
  discrete time line: cycle 0 starts at time 0 and runs for `dur 0`; the
  interval timer is installed when cycle 0 completes, so cycle `n ≥ 1`
  starts at `dur 0 + n * interval` — whether or not an earlier cycle is
  still running, since `setInterval` fires at a fixed rate and does not
  wait for the async callback to settle.
-/

/-- Attributes (`$`) of an xml2js `<address>` element (monitor.js lines 51, 59, 62, 66). -/
structure AddrAttrs where
  addrtype : Option String
  addr : Option String
  vendor : Option String
deriving Repr, DecidableEq

/-- An element of the JS `addresses` array: `dollar` models the `$` attribute
object, absent on a malformed entry (the code guards `addr && addr.$`). -/
structure AddrObj where
  dollar : Option AddrAttrs
deriving Repr, DecidableEq

/-- `host.address` before the arrayification of line 47:
either already an array (possibly holding null entries) or a single
(possibly absent) value that the code wraps as `[host.address]`. -/
inductive AddrField where
  | arr : List (Option AddrObj) → AddrField
  | single : Option AddrObj → AddrField
deriving Repr, DecidableEq

/-- Attributes (`$`) of an xml2js `<status>` element (line 43). -/
structure StatusAttrs where
  state : Option String
deriving Repr, DecidableEq

/-- An element of the `host.status` array; `dollar` models `status[0].$`. -/
structure StatusObj where
  dollar : Option StatusAttrs
deriving Repr, DecidableEq

/-- One entry of the host list (lines 42–70): `status` is the array xml2js
produces for `<status>` children (absent on malformed input), `address` the
raw `host.address` field. -/
structure HostObj where
  status : Option (List (Option StatusObj))
  address : AddrField
deriving Repr, DecidableEq

/-- `result.nmaprun.host` before the arrayification of line 40. -/
inductive HostField where
  | arr : List (Option HostObj) → HostField
  | single : HostObj → HostField
deriving Repr, DecidableEq

/-- The `result.nmaprun` object (line 37). -/
structure NmapRun where
  host : Option HostField
deriving Repr, DecidableEq

/-- The whole xml2js parse `result` (line 31). -/
structure RawResult where
  nmaprun : Option NmapRun
deriving Repr, DecidableEq

/-- Outcome of the effectful part of a scan: `failure` is any throw inside
the `try` of `getActiveHosts` (exec error, non-zero exit, unreadable output
file, unparseable XML); `success` carries the parse tree. -/
inductive ScanOutcome where
  | failure : ScanOutcome
  | success : RawResult → ScanOutcome
deriving Repr, DecidableEq

/-- JS template-literal interpolation of a possibly-undefined string. -/
def jstr (o : Option String) : String :=
  o.getD "undefined"

/-- JS `x || d` on a possibly-undefined string: the empty string is falsy. -/
def jsOr (o : Option String) (d : String) : String :=
  match o with
  | some v => if v = "" then d else v
  | none => d

/-- `Set.add` on the insertion-order list model of a JS `Set`. -/
def setAdd (s : List String) (x : String) : List String :=
  if s.contains x then s else s ++ [x]

/-- The truthiness-guarded filter predicate of line 43:
`host && host.status && host.status[0] && host.status[0].$ &&
host.status[0].$.state === 'up'`. -/
def hostIsUp : Option HostObj → Bool
  | none => false
  | some h =>
    match h.status with
    | none => false
    | some statusList =>
      match statusList.head? with
      | some (some st) =>
        match st.dollar with
        | some attrs => attrs.state == some "up"
        | none => false
      | _ => false

/-- The arrayification of line 47: `Array.isArray(host.address) ? host.address : [host.address]`. -/
def addrList : AddrField → List (Option AddrObj)
  | .arr l => l
  | .single a => [a]

/-- The `find` predicate of lines 51 and 62: `addr && addr.$ && addr.$.addrtype === t`. -/
def isAddrType (t : String) : Option AddrObj → Bool
  | none => false
  | some ao =>
    match ao.dollar with
    | some a => a.addrtype == some t
    | none => false

/-- `addresses.find(...)` of lines 51/62, projected to the `$` object the
code reads afterwards (the guard makes `$` present on a hit). -/
def findAddrAttrs (t : String) (l : List (Option AddrObj)) : Option AddrAttrs :=
  match l.find? (isAddrType t) with
  | some (some ao) => ao.dollar
  | _ => none

/-- The with-MAC identity template of line 66: `ip (mac - vendor)`. -/
def mkMacIdentity (ip mac vend : String) : String :=
  ip ++ " (" ++ mac ++ " - " ++ vend ++ ")"

/-- The no-MAC identity template of line 67: `ip (No MAC)`. -/
def mkNoMacIdentity (ip : String) : String :=
  ip ++ " (No MAC)"

/-- Lines 47–67 for one host that passed the `up` filter: find the first
ipv4 address (skip the host if none), find the first mac address, and build
the identifier string; `none` means the host is skipped. -/
def hostIdentity (ho : HostObj) : Option String :=
  let addresses := addrList ho.address
  match findAddrAttrs "ipv4" addresses with
  | none => none
  | some ipAttrs =>
    let ip := jstr ipAttrs.addr
    match findAddrAttrs "mac" addresses with
    | some macAttrs => some (mkMacIdentity ip (jstr macAttrs.addr) (jsOr macAttrs.vendor "Unknown"))
    | none => some (mkNoMacIdentity ip)

/-- The `forEach` body of lines 44–70: add the host's identity, if any, to
the accumulated set. -/
def addHost (acc : List String) (h : Option HostObj) : List String :=
  match h with
  | none => acc
  | some ho =>
    match hostIdentity ho with
    | none => acc
    | some id => setAdd acc id

/-- Lines 37–40: the host list after the truthiness checks on
`result.nmaprun` and `result.nmaprun.host` and the arrayification. -/
def hostEntries (r : RawResult) : List (Option HostObj) :=
  match r.nmaprun with
  | none => []
  | some run =>
    match run.host with
    | none => []
    | some (.arr l) => l
    | some (.single h) => [some h]

/-- Lines 34–72: the pure extraction of the active-host set from a parse tree. -/
def extractHosts (r : RawResult) : List String :=
  ((hostEntries r).filter hostIsUp).foldl addHost []

/-- The error line of line 75 (the interpolated stack trace is not modelled). -/
def scanFailureLog : String := "[Error] Scan failed"

/-- The error lines produced inside `getActiveHosts` (line 75). -/
def scanErrorLogs : ScanOutcome → List String
  | .failure => [scanFailureLog]
  | .success _ => []

/-- `getActiveHosts` (lines 21–79): on any failure the `catch` returns the
empty set; on success the set extracted from the parse tree. -/
def getActiveHosts : ScanOutcome → List String
  | .failure => []
  | .success r => extractHosts r

/-- Line 88: `previousHosts.size === 0`. -/
def isFirstScanOf (prev : List String) : Bool :=
  prev.length == 0

/-- Lines 94–98: hosts of `current` not in `previous`, in the iteration
order of `current`. -/
def newDevicesOf (prev current : List String) : List String :=
  current.filter (fun h => !(prev.contains h))

/-- Lines 101–105: hosts of `previous` not in `current`. -/
def leftDevicesOf (prev current : List String) : List String :=
  prev.filter (fun h => !(current.contains h))

/-- A `notify-send` request: title and body (lines 122–134). -/
structure Notification where
  title : String
  body : String
deriving Repr, DecidableEq

/-- The "New Devices" notification of lines 122–127. -/
def mkNewNotification (newDevices : List String) : Notification :=
  { title := "Network: New Devices"
    body := "Found " ++ toString newDevices.length ++ " new device(s):\x0a"
      ++ String.intercalate "\x0a" newDevices }

/-- The "Devices Left" notification of lines 130–134. -/
def mkLeftNotification (leftDevices : List String) : Notification :=
  { title := "Network: Devices Left"
    body := toString leftDevices.length ++ " device(s) left:\x0a"
      ++ String.intercalate "\x0a" leftDevices }

/-- Whether each `notify-send` invocation would succeed if attempted. -/
structure NotifierBehavior where
  newOk : Bool
  leftOk : Bool
deriving Repr, DecidableEq

/-- The error line of line 137 (the interpolated message is not modelled). -/
def notifyFailureLog : String := "[Error] Failed to send notification"

/-- Lines 115–139 if `hasChanges && !isFirstScan`: the single `try`/`catch`
around both sends.  Returns (attempted, delivered, error lines).  A throw in
the first send jumps to the `catch`, so the second send is never attempted. -/
def notifyPhase (newDevices leftDevices : List String)
    (notifier : NotifierBehavior) :
    List Notification × List Notification × List String :=
  if 0 < newDevices.length then
    let nNew := mkNewNotification newDevices
    if notifier.newOk then
      if 0 < leftDevices.length then
        let nLeft := mkLeftNotification leftDevices
        if notifier.leftOk then ([nNew, nLeft], [nNew, nLeft], [])
        else ([nNew, nLeft], [nNew], [notifyFailureLog])
      else ([nNew], [nNew], [])
    else ([nNew], [], [notifyFailureLog])
  else if 0 < leftDevices.length then
    let nLeft := mkLeftNotification leftDevices
    if notifier.leftOk then ([nLeft], [nLeft], [])
    else ([nLeft], [], [notifyFailureLog])
  else ([], [], [])

/-- Lines 110–115: per-change log lines, or the summary line. -/
def logPhase (newDevices leftDevices : List String) (currentCount : Nat) :
    List String :=
  if 0 < newDevices.length || 0 < leftDevices.length then
    newDevices.map (fun h => "[+] NEW DEVICE: " ++ h)
      ++ leftDevices.map (fun h => "[-] DEVICE LEFT: " ++ h)
  else
    ["No changes. " ++ toString currentCount ++ " hosts active."]

/-- Result of one `checkForChanges` cycle. -/
structure CycleResult where
  logLines : List String
  errorLogs : List String
  notificationsAttempted : List Notification
  notificationsDelivered : List Notification
  newState : List String
deriving Repr, DecidableEq

/-- Line 107: `newDevices.length > 0 || leftDevices.length > 0`. -/
def hasChangesOf (newDevices leftDevices : List String) : Bool :=
  0 < newDevices.length || 0 < leftDevices.length

/-- `checkForChanges` (lines 84–143) as a pure function of the previous
state, the scan outcome and the notifier behaviour. -/
def checkForChanges (previousHosts : List String) (scan : ScanOutcome)
    (notifier : NotifierBehavior) : CycleResult :=
  let currentHosts := getActiveHosts scan
  let isFirstScan := isFirstScanOf previousHosts
  let newDevices := newDevicesOf previousHosts currentHosts
  let leftDevices := leftDevicesOf previousHosts currentHosts
  let hasChanges := hasChangesOf newDevices leftDevices
  let np :=
    if hasChanges && !isFirstScan then notifyPhase newDevices leftDevices notifier
    else ([], [], [])
  { logLines := logPhase newDevices leftDevices currentHosts.length
    errorLogs := scanErrorLogs scan ++ np.2.2
    notificationsAttempted := np.1
    notificationsDelivered := np.2.1
    newState := currentHosts }

/-- `SCAN_INTERVAL_MS` (line 12). -/
def SCAN_INTERVAL_MS : Nat := 5 * 60 * 1000

/-- Start time of cycle `n` under `main` (lines 148–155): cycle 0 runs
immediately and is awaited; the `setInterval` timer is installed when it
completes (time `dur 0`) and then fires every `interval` ms, starting a new
cycle each time regardless of whether an earlier cycle is still running. -/
def cycleStart (interval : Nat) (dur : Nat → Nat) : Nat → Nat
  | 0 => 0
  | n + 1 => dur 0 + (n + 1) * interval

/-- Cycle `n` is in flight at time `t`: it has started and not yet finished
(`dur n` is its duration). -/
def inFlight (interval : Nat) (dur : Nat → Nat) (n t : Nat) : Prop :=
  cycleStart interval dur n ≤ t ∧ t < cycleStart interval dur n + dur n

/-- No two distinct cycles are ever in flight at the same time. -/
def overlapFree (interval : Nat) (dur : Nat → Nat) : Prop :=
  ∀ m n t, inFlight interval dur m t → inFlight interval dur n t → m = n

-- Concrete fixtures used by counterexamples and witnesses.

/-- A `<status state="up"/>` entry. -/
def upStatus : StatusObj :=
  { dollar := some { state := some "up" } }

/-- An iv4 address entry carrying the given address string. -/
def ipv4Addr (a : String) : AddrObj :=
  { dollar := some { addrtype := some "ipv4", addr := some a, vendor := none } }

/-- A mac address entry carrying the given address and vendor. -/
def macAddr (a : String) (v : Option String) : AddrObj :=
  { dollar := some { addrtype := some "mac", addr := some a, vendor := v } }

/-- A well-formed up host at 10.0.0.9 with no MAC address. -/
def host9 : HostObj :=
  { status := some [some upStatus]
    address := .arr [some (ipv4Addr "10.0.0.9")] }

/-- A parse tree whose only host is `host9`. -/
def report9 : RawResult :=
  { nmaprun := some { host := some (.arr [some host9]) } }

/-- A well-formed up host at 10.0.0.5 with a MAC address and vendor. -/
def host5 : HostObj :=
  { status := some [some upStatus]
    address := .arr [some (ipv4Addr "10.0.0.5"), some (macAddr "AA:BB:CC:DD:EE:FF" (some "Acme"))] }

/-- A parse tree whose only host is `host5`. -/
def report5 : RawResult :=
  { nmaprun := some { host := some (.arr [some host5]) } }

/-! ## Helper lemmas -/

/-- Membership after a `Set.add`. -/
theorem mem_setAdd (acc : List String) (x s : String) :
    s ∈ setAdd acc x ↔ s ∈ acc ∨ s = x := by
  by_cases h : acc.contains x
  · have hx : x ∈ acc := by simpa [List.contains, List.elem_iff] using h
    simp only [setAdd, h, if_true]
    constructor
    · exact Or.inl
    · rintro (hs | rfl)
      · exact hs
      · exact hx
  · simp only [setAdd]
    rw [if_neg h]
    simp [List.mem_append]

/-- A summary or per-change log is produced on every cycle. -/
theorem logPhase_ne_nil (nd ld : List String) (c : Nat) :
    logPhase nd ld c ≠ [] := by
  unfold logPhase
  split_ifs with h
  · simp only [ne_eq, List.append_eq_nil, List.map_eq_nil_iff, not_and]
    intro hnd hld
    subst hnd; subst hld
    simp at h
  · simp

/-- A first-scan cycle (empty previous state) attempts and delivers no
notifications, whatever the scan returns. -/
theorem notifications_nil_of_prev_nil (scan : ScanOutcome) (notifier : NotifierBehavior) :
    (checkForChanges [] scan notifier).notificationsAttempted = []
      ∧ (checkForChanges [] scan notifier).notificationsDelivered = [] := by
  simp [checkForChanges, isFirstScanOf]

/-- The state committed at the end of a cycle is exactly what the scan
returned (line 142). -/
theorem newState_eq (prev : List String) (scan : ScanOutcome) (notifier : NotifierBehavior) :
    (checkForChanges prev scan notifier).newState = getActiveHosts scan := rfl

/-- Diffing against an empty current set marks every previous host as left. -/
theorem leftDevicesOf_nil (prev : List String) : leftDevicesOf prev [] = prev := by
  unfold leftDevicesOf
  exact List.filter_eq_self.mpr (fun a _ => rfl)


/-! ## Claim theorems -/

/-- C4: the diff of a cycle is exact set difference in both directions, and
the first-cycle flag holds iff the previous state was empty.  The
computation is a pure function of the two lists (no I/O, inputs unchanged)
by construction of the embedding. -/
theorem C4_diff_correct :
    (∀ prev current x, x ∈ newDevicesOf prev current ↔ x ∈ current ∧ x ∉ prev)
  ∧ (∀ prev current x, x ∈ leftDevicesOf prev current ↔ x ∈ prev ∧ x ∉ current)
  ∧ (∀ prev, isFirstScanOf prev = true ↔ prev = []) := by
  refine ⟨?_, ?_, ?_⟩
  · intro prev current x
    simp [newDevicesOf, List.mem_filter, List.contains, List.elem_iff]
  · intro prev current x
    simp [leftDevicesOf, List.mem_filter, List.contains, List.elem_iff]
  · intro prev
    simp [isFirstScanOf, List.length_eq_zero]

/-- C5: when the first-cycle flag is set (empty previous state), no
notification is attempted or delivered, whatever the scan found and however
the notifier would behave; log lines are still produced. -/
theorem C5_first_scan_suppression (prev : List String) (scan : ScanOutcome)
    (notifier : NotifierBehavior) (h : isFirstScanOf prev = true) :
    (checkForChanges prev scan notifier).notificationsAttempted = []
  ∧ (checkForChanges prev scan notifier).notificationsDelivered = []
  ∧ (checkForChanges prev scan notifier).logLines ≠ [] := by
  have hp : prev = [] := by simpa [isFirstScanOf, List.length_eq_zero] using h
  subst hp
  obtain ⟨h1, h2⟩ := notifications_nil_of_prev_nil scan notifier
  exact ⟨h1, h2, logPhase_ne_nil _ _ _⟩

/-- Witness for C5 at a first cycle that does find a host. -/
theorem C5_first_scan_suppression_witness :
    (checkForChanges [] (.success report9) ⟨true, true⟩).notificationsAttempted = []
  ∧ (checkForChanges [] (.success report9) ⟨true, true⟩).notificationsDelivered = []
  ∧ (checkForChanges [] (.success report9) ⟨true, true⟩).logLines ≠ [] :=
  C5_first_scan_suppression [] (.success report9) ⟨true, true⟩ rfl

/-- C6: a failed scan does not abort the cycle: the error is logged, the
cycle proceeds with the empty report (every previous host becomes a
departure candidate), and every cycle — failed or not — commits the scanned
set as the new state. -/
theorem C6_scan_failure_nonfatal (prev : List String) (notifier : NotifierBehavior) :
    scanFailureLog ∈ (checkForChanges prev .failure notifier).errorLogs
  ∧ (checkForChanges prev .failure notifier).newState = []
  ∧ leftDevicesOf prev (getActiveHosts .failure) = prev
  ∧ (∀ (p2 : List String) (scan : ScanOutcome) (n2 : NotifierBehavior),
      (checkForChanges p2 scan n2).newState = getActiveHosts scan) := by
  refine ⟨?_, rfl, leftDevicesOf_nil prev, fun p2 scan n2 => newState_eq p2 scan n2⟩
  simp [checkForChanges, scanErrorLogs]

/-- C7: normalization is total and degrades locally: a report with no host
list yields the empty set, a non-array host list is treated as a singleton
list, a host with absent status is filtered out, and a host with an absent
address list or no ipv4 address is skipped. -/
theorem C7_normalize_total :
    extractHosts { nmaprun := none } = []
  ∧ extractHosts { nmaprun := some { host := none } } = []
  ∧ (∀ h : HostObj, extractHosts { nmaprun := some { host := some (.single h) } }
      = extractHosts { nmaprun := some { host := some (.arr [some h]) } })
  ∧ (∀ af : AddrField, hostIsUp (some { status := none, address := af }) = false)
  ∧ (∀ sf, hostIdentity { status := sf, address := .single none } = none)
  ∧ (∀ sf (l : List (Option AddrObj)), (∀ a ∈ l, isAddrType "ipv4" a = false) →
      hostIdentity { status := sf, address := .arr l } = none) := by
  refine ⟨rfl, rfl, fun h => rfl, fun af => rfl, fun sf => rfl, ?_⟩
  intro sf l hl
  have hfind : l.find? (isAddrType "ipv4") = none :=
    List.find?_eq_none.mpr (fun x hx => by simp [hl x hx])
  simp [hostIdentity, addrList, findAddrAttrs, hfind]

/-- Witness for C7's last conjunct: a host whose only address entry is null
is skipped. -/
theorem C7_normalize_total_witness :
    hostIdentity { status := some [some upStatus], address := .arr [none] } = none :=
  C7_normalize_total.2.2.2.2.2 (some [some upStatus]) [none] (by decide)

/-- C10: the first-cycle flag is recomputed each cycle from emptiness of the
stored previous set: a failed scan commits the empty set, and any cycle
starting from the empty set — such as the one right after that failure —
produces no notifications, even when its diff has arrivals. -/
theorem C10_flag_from_emptiness :
    (∀ prev, isFirstScanOf prev = true ↔ prev = [])
  ∧ (∀ (prev : List String) (notifier : NotifierBehavior),
      (checkForChanges prev .failure notifier).newState = [])
  ∧ (∀ (scan : ScanOutcome) (notifier : NotifierBehavior),
      (checkForChanges [] scan notifier).notificationsAttempted = []
        ∧ (checkForChanges [] scan notifier).notificationsDelivered = [])
  ∧ newDevicesOf [] (getActiveHosts (.success report5)) ≠ []
  ∧ (checkForChanges [] (.success report5) ⟨true, true⟩).notificationsAttempted = [] := by
  refine ⟨?_, fun prev notifier => rfl, fun scan notifier => notifications_nil_of_prev_nil scan notifier, by decide, (notifications_nil_of_prev_nil (.success report5) ⟨true, true⟩).1⟩
  intro prev
  simp [isFirstScanOf, List.length_eq_zero]

/-- Membership in the `forEach` accumulation: a string is collected iff it
was already in the accumulator or is the identity of some non-null host of
the list. -/
theorem mem_foldl_addHost (l : List (Option HostObj)) (acc : List String) (s : String) :
    s ∈ l.foldl addHost acc ↔ s ∈ acc ∨ ∃ ho, some ho ∈ l ∧ hostIdentity ho = some s := by
  induction l generalizing acc with
  | nil => simp
  | cons h l ih =>
    rw [List.foldl_cons, ih]
    cases h with
    | none =>
      simp only [addHost, List.mem_cons]
      constructor
      · rintro (hs | ⟨ho, hin, hid⟩)
        · exact Or.inl hs
        · exact Or.inr ⟨ho, Or.inr hin, hid⟩
      · rintro (hs | ⟨ho, (hcon | hin), hid⟩)
        · exact Or.inl hs
        · cases hcon
        · exact Or.inr ⟨ho, hin, hid⟩
    | some h0 =>
      cases hid0 : hostIdentity h0 with
      | none =>
        simp only [addHost, hid0, List.mem_cons]
        constructor
        · rintro (hs | ⟨ho, hin, hid⟩)
          · exact Or.inl hs
          · exact Or.inr ⟨ho, Or.inr hin, hid⟩
        · rintro (hs | ⟨ho, (hcon | hin), hid⟩)
          · exact Or.inl hs
          · obtain rfl : h0 = ho := by injection hcon with h; exact h.symm
            rw [hid0] at hid; cases hid
          · exact Or.inr ⟨ho, hin, hid⟩
      | some id0 =>
        simp only [addHost, hid0, List.mem_cons, mem_setAdd]
        constructor
        · rintro (⟨hs | rfl⟩ | ⟨ho, hin, hid⟩)
          · exact Or.inl hs
          · exact Or.inr ⟨h0, Or.inl rfl, hid0⟩
          · exact Or.inr ⟨ho, Or.inr hin, hid⟩
        · rintro (hs | ⟨ho, (hcon | hin), hid⟩)
          · exact Or.inl (Or.inl hs)
          · obtain rfl : h0 = ho := by injection hcon with h; exact h.symm
            rw [hid0] at hid
            injection hid with h
            exact Or.inl (Or.inr h.symm)
          · exact Or.inr ⟨ho, hin, hid⟩

/-- The address `find` succeeds exactly when some entry of the list matches
the requested address type. -/
theorem findAddrAttrs_isSome (t : String) (l : List (Option AddrObj)) :
    (findAddrAttrs t l).isSome = l.any (isAddrType t) := by
  induction l with
  | nil => rfl
  | cons a l ih =>
    rw [List.any_cons]
    cases ha : isAddrType t a with
    | false =>
      rw [Bool.false_or]
      rw [show findAddrAttrs t (a :: l) = findAddrAttrs t l from by
        simp [findAddrAttrs, List.find?_cons, ha]]
      exact ih
    | true =>
      rw [Bool.true_or]
      cases a with
      | none => cases ha
      | some ao =>
        cases hd : ao.dollar with
        | none => rw [isAddrType, hd] at ha; cases ha
        | some attrs => simp [findAddrAttrs, List.find?_cons, ha, hd]

/-- C8: a string is in the normalized identity set iff it is the identity of
some host entry whose status is explicitly "up" and whose address list has
an ipv4 entry: `hostIdentity` succeeds exactly when an ipv4 address exists,
and `hostIsUp` holds exactly when the first status entry carries
`state="up"` — "down" and absent statuses are excluded alike. -/
theorem C8_membership :
    (∀ (r : RawResult) (s : String),
      s ∈ extractHosts r ↔ ∃ ho : HostObj, some ho ∈ hostEntries r
        ∧ hostIsUp (some ho) = true ∧ hostIdentity ho = some s)
  ∧ (∀ ho : HostObj, (hostIdentity ho).isSome = (addrList ho.address).any (isAddrType "ipv4"))
  ∧ (∀ (st : Option (List (Option StatusObj))) (af : AddrField),
      hostIsUp (some { status := st, address := af }) = true ↔
        ∃ rest s0 attrs, st = some (some s0 :: rest)
          ∧ s0.dollar = some attrs ∧ attrs.state = some "up") := by
  refine ⟨?_, ?_, ?_⟩
  · intro r s
    rw [extractHosts, mem_foldl_addHost]
    simp only [List.not_mem_nil, false_or, List.mem_filter]
    constructor
    · rintro ⟨ho, ⟨hin, hup⟩, hid⟩
      exact ⟨ho, hin, hup, hid⟩
    · rintro ⟨ho, hin, hup, hid⟩
      exact ⟨ho, ⟨hin, hup⟩, hid⟩
  · intro ho
    rw [← findAddrAttrs_isSome]
    rw [hostIdentity]
    cases hip : findAddrAttrs "ipv4" (addrList ho.address) with
    | none => simp [hip]
    | some ipAttrs =>
      cases hmac : findAddrAttrs "mac" (addrList ho.address) <;> simp [hip, hmac]
  · intro st af
    cases st with
    | none => simp [hostIsUp]
    | some sl =>
      cases sl with
      | nil => simp [hostIsUp]
      | cons s0q rest =>
        cases s0q with
        | none => simp [hostIsUp]
        | some s0 =>
          cases hd : s0.dollar with
          | none => simp [hostIsUp, hd]
          | some attrs =>
            simp only [hostIsUp, List.head?_cons, hd]
            constructor
            · intro hstate
              exact ⟨rest, s0, attrs, rfl, hd, by simpa using hstate⟩
            · rintro ⟨rest2, s02, attrs2, heq, hd2, hstate⟩
              injection heq with heq2
              obtain ⟨rfl, rfl⟩ : s02 = s0 ∧ rest2 = rest := by
                constructor <;> injection heq2 with ha hb
                · exact Option.some.inj ha.symm
                · exact hb.symm
              rw [hd] at hd2
              obtain rfl : attrs2 = attrs := Option.some.inj hd2.symm
              simp [hstate]

/-- The two identity templates never collide for the same primary address:
the with-MAC form contains a dash after the shared prefix, the no-MAC form
does not. -/
theorem mkMac_ne_mkNoMac (ip mac vend : String) :
    mkMacIdentity ip mac vend ≠ mkNoMacIdentity ip := by
  intro h
  have hd : (mkMacIdentity ip mac vend).data = (mkNoMacIdentity ip).data :=
    congrArg String.data h
  simp only [mkMacIdentity, mkNoMacIdentity, String.data_append, List.append_assoc] at hd
  have hd2 := List.append_cancel_left hd
  have hmem : ('-' : Char) ∈
      (" (" : String).data ++ (mac.data ++ ((" - " : String).data
        ++ (vend.data ++ (")" : String).data))) := by
    refine List.mem_append_right _ (List.mem_append_right _ (List.mem_append_left _ ?_))
    decide
  rw [hd2] at hmem
  exact absurd hmem (by decide)

/-- C9: the identity of an included host is composed from the first ipv4
address plus — when a mac entry exists — the first mac address and its
vendor label (vendor defaulting to "Unknown" when absent), and otherwise
from the ipv4 address plus the "No MAC" marker; for one primary address the
two forms never coincide. -/
theorem C9_identity_composition (ho : HostObj) (ipAttrs : AddrAttrs)
    (hip : findAddrAttrs "ipv4" (addrList ho.address) = some ipAttrs) :
    (∀ macAttrs : AddrAttrs, findAddrAttrs "mac" (addrList ho.address) = some macAttrs →
      hostIdentity ho = some (mkMacIdentity (jstr ipAttrs.addr) (jstr macAttrs.addr)
        (jsOr macAttrs.vendor "Unknown")))
  ∧ (findAddrAttrs "mac" (addrList ho.address) = none →
      hostIdentity ho = some (mkNoMacIdentity (jstr ipAttrs.addr)))
  ∧ (∀ v : Option String, v = none → jsOr v "Unknown" = "Unknown")
  ∧ (∀ ip mac vend : String, mkMacIdentity ip mac vend ≠ mkNoMacIdentity ip) := by
  refine ⟨?_, ?_, ?_, mkMac_ne_mkNoMac⟩
  · intro macAttrs hmac
    rw [hostIdentity]
    simp only [hip, hmac]
  · intro hmac
    rw [hostIdentity]
    simp only [hip, hmac]
  · rintro v rfl
    rfl

/-- Witness for C9 on `host5` (ipv4 + mac + vendor present). -/
theorem C9_identity_composition_witness :
    hostIdentity host5 = some (mkMacIdentity "10.0.0.5" "AA:BB:CC:DD:EE:FF" "Acme") := by
  have h := (C9_identity_composition host5
      { addrtype := some "ipv4", addr := some "10.0.0.5", vendor := none } rfl).1
      { addrtype := some "mac", addr := some "AA:BB:CC:DD:EE:FF", vendor := some "Acme" } rfl
  simpa [jstr, jsOr] using h

/-- C1 fails on the code: after a failed scan commits the empty set, the
recovery cycle's empty previous state makes `isFirstScan` true, so the "new
devices" burst the claim demands is suppressed.  Concretely: the failed
cycle (previous state one host) does send the full departure burst and
commits `[]`; the following successful cycle finds a host, computes it as
an arrival, and attempts no notification at all. -/
theorem C1_counterexample :
    (checkForChanges ["10.0.0.5 (No MAC)"] .failure ⟨true, true⟩).notificationsAttempted
        = [mkLeftNotification ["10.0.0.5 (No MAC)"]]
  ∧ (checkForChanges ["10.0.0.5 (No MAC)"] .failure ⟨true, true⟩).newState = []
  ∧ newDevicesOf [] (getActiveHosts (.success report9)) = ["10.0.0.9 (No MAC)"]
  ∧ (checkForChanges [] (.success report9) ⟨true, true⟩).notificationsAttempted = [] :=
  ⟨rfl, rfl, rfl, rfl⟩

/-- C1 amended: a failed scan with non-empty previous state produces the
full departure burst and commits the empty set; the immediately following
cycle — whatever its scan returns and however the notifier behaves —
produces no notification, because the empty committed state counts as a
first scan. -/
theorem C1_failure_burst_then_silent_recovery (prev : List String)
    (scan : ScanOutcome) (notifier notifier2 : NotifierBehavior) (h : prev ≠ []) :
    (checkForChanges prev .failure notifier).notificationsAttempted
        = [mkLeftNotification prev]
  ∧ (checkForChanges prev .failure notifier).newState = []
  ∧ (checkForChanges (checkForChanges prev .failure notifier).newState
        scan notifier2).notificationsAttempted = [] := by
  obtain ⟨a, l, rfl⟩ : ∃ a l, prev = a :: l := by
    cases prev with
    | nil => exact absurd rfl h
    | cons a l => exact ⟨a, l, rfl⟩
  refine ⟨?_, rfl, (notifications_nil_of_prev_nil scan notifier2).1⟩
  have hleft : leftDevicesOf (a :: l) (getActiveHosts .failure) = a :: l :=
    leftDevicesOf_nil (a :: l)
  simp only [checkForChanges, getActiveHosts, hleft]
  simp only [newDevicesOf, List.filter_nil, isFirstScanOf, List.length_cons]
  simp [notifyPhase]
  cases notifier.leftOk <;> simp [leftDevicesOf_nil, hasChangesOf]

/-- Witness for the amended C1 at a concrete non-empty previous state. -/
theorem C1_failure_burst_then_silent_recovery_witness :
    (checkForChanges ["10.0.0.9 (No MAC)"] .failure ⟨true, true⟩).notificationsAttempted
        = [mkLeftNotification ["10.0.0.9 (No MAC)"]]
  ∧ (checkForChanges ["10.0.0.9 (No MAC)"] .failure ⟨true, true⟩).newState = []
  ∧ (checkForChanges (checkForChanges ["10.0.0.9 (No MAC)"] .failure ⟨true, true⟩).newState
        (.success report9) ⟨true, true⟩).notificationsAttempted = [] :=
  C1_failure_burst_then_silent_recovery ["10.0.0.9 (No MAC)"]
    (.success report9) ⟨true, true⟩ ⟨true, true⟩ (by decide)

/-- C2 fails on the code: both `notify-send` calls live in one `try`/`catch`
(lines 120–138), so a throw in the "new devices" send skips the "devices
left" send.  Concretely: one host left and one arrived, the "new devices"
delivery fails, and the "devices left" notification is never attempted —
though the cycle still logs the error and commits the new state. -/
theorem C2_counterexample :
    leftDevicesOf ["10.0.0.5 (No MAC)"] (getActiveHosts (.success report9))
        = ["10.0.0.5 (No MAC)"]
  ∧ (checkForChanges ["10.0.0.5 (No MAC)"] (.success report9) ⟨false, true⟩).notificationsAttempted
        = [mkNewNotification ["10.0.0.9 (No MAC)"]]
  ∧ mkLeftNotification ["10.0.0.5 (No MAC)"] ∉
      (checkForChanges ["10.0.0.5 (No MAC)"] (.success report9) ⟨false, true⟩).notificationsAttempted
  ∧ notifyFailureLog ∈
      (checkForChanges ["10.0.0.5 (No MAC)"] (.success report9) ⟨false, true⟩).errorLogs
  ∧ (checkForChanges ["10.0.0.5 (No MAC)"] (.success report9) ⟨false, true⟩).newState
        = getActiveHosts (.success report9) := by
  refine ⟨rfl, rfl, ?_, ?_, rfl⟩ <;> decide

/-- Whenever the notification phase delivers less than it attempted, the
delivery failure is in its error log. -/
theorem notifyPhase_failure_logged (nd ld : List String) (nb : NotifierBehavior)
    (hne : (notifyPhase nd ld nb).2.1 ≠ (notifyPhase nd ld nb).1) :
    notifyFailureLog ∈ (notifyPhase nd ld nb).2.2 := by
  unfold notifyPhase at hne ⊢
  split_ifs at hne ⊢ <;> simp_all

/-- C2 amended: a notification-delivery failure is caught and logged and
never aborts the cycle or the state commit; a failure of the second
("devices left") send does not affect the already-sent first notification;
but a failure of the first ("new devices") send prevents the "devices left"
notification of the same cycle from being attempted, because both sends
share one exception handler. -/
theorem C2_notify_failure_isolation (prev : List String) (scan : ScanOutcome)
    (notifier : NotifierBehavior) :
    (checkForChanges prev scan notifier).newState = getActiveHosts scan
  ∧ ((checkForChanges prev scan notifier).notificationsDelivered
        ≠ (checkForChanges prev scan notifier).notificationsAttempted →
      notifyFailureLog ∈ (checkForChanges prev scan notifier).errorLogs)
  ∧ (notifier.newOk = false → isFirstScanOf prev = false →
      newDevicesOf prev (getActiveHosts scan) ≠ [] →
      (checkForChanges prev scan notifier).notificationsAttempted
        = [mkNewNotification (newDevicesOf prev (getActiveHosts scan))])
  ∧ (notifier.newOk = true → notifier.leftOk = false → isFirstScanOf prev = false →
      newDevicesOf prev (getActiveHosts scan) ≠ [] →
      leftDevicesOf prev (getActiveHosts scan) ≠ [] →
      (checkForChanges prev scan notifier).notificationsAttempted
          = [mkNewNotification (newDevicesOf prev (getActiveHosts scan)),
             mkLeftNotification (leftDevicesOf prev (getActiveHosts scan))]
        ∧ (checkForChanges prev scan notifier).notificationsDelivered
          = [mkNewNotification (newDevicesOf prev (getActiveHosts scan))]) := by
  refine ⟨rfl, ?_, ?_, ?_⟩
  · intro hne
    simp only [checkForChanges] at hne ⊢
    set nd := newDevicesOf prev (getActiveHosts scan) with hnd
    set ld := leftDevicesOf prev (getActiveHosts scan) with hld
    by_cases hc : (hasChangesOf nd ld && !isFirstScanOf prev) = true
    · rw [if_pos hc] at hne ⊢
      rw [List.mem_append]
      exact Or.inr (notifyPhase_failure_logged nd ld notifier hne)
    · rw [if_neg hc] at hne
      exact absurd rfl hne
  · intro h1 h2 h3
    have hpos : 0 < (newDevicesOf prev (getActiveHosts scan)).length :=
      List.length_pos.mpr h3
    have hc : (hasChangesOf (newDevicesOf prev (getActiveHosts scan))
        (leftDevicesOf prev (getActiveHosts scan)) && !isFirstScanOf prev) = true := by
      simp [hasChangesOf, h2, hpos]
    simp only [checkForChanges]
    rw [if_pos hc]
    unfold notifyPhase
    rw [if_pos hpos, if_neg (by simp [h1])]
  · intro h1 h2 h3 h4 h5
    have hposn : 0 < (newDevicesOf prev (getActiveHosts scan)).length :=
      List.length_pos.mpr h4
    have hposl : 0 < (leftDevicesOf prev (getActiveHosts scan)).length :=
      List.length_pos.mpr h5
    have hc : (hasChangesOf (newDevicesOf prev (getActiveHosts scan))
        (leftDevicesOf prev (getActiveHosts scan)) && !isFirstScanOf prev) = true := by
      simp [hasChangesOf, h3, hposn]
    constructor <;>
      · simp only [checkForChanges]
        rw [if_pos hc]
        unfold notifyPhase
        rw [if_pos hposn, if_pos h1, if_pos hposl, if_neg (by simp [h2])]

/-- Witness for the amended C2: in the counterexample cycle the state is
still committed, the failure is logged, and only the first notification was
attempted. -/
theorem C2_notify_failure_isolation_witness :
    (checkForChanges ["10.0.0.5 (No MAC)"] (.success report9) ⟨false, true⟩).notificationsAttempted
      = [mkNewNotification (newDevicesOf ["10.0.0.5 (No MAC)"]
          (getActiveHosts (.success report9)))] :=
  (C2_notify_failure_isolation ["10.0.0.5 (No MAC)"] (.success report9) ⟨false, true⟩).2.2.1
    rfl rfl (by decide)

/-- C3 fails on the code: `main` schedules `checkForChanges` with
`setInterval`, which fires at a fixed rate whether or not the previous
async cycle has settled.  With every cycle lasting one tick plus 1 ms,
cycles 1 and 2 are both in flight at time 900001 ms. -/
theorem C3_counterexample :
    ¬ overlapFree SCAN_INTERVAL_MS (fun _ => SCAN_INTERVAL_MS + 1) := by
  intro h
  have h12 := h 1 2 900001
    (by simp only [inFlight, cycleStart, SCAN_INTERVAL_MS]; omega)
    (by simp only [inFlight, cycleStart, SCAN_INTERVAL_MS]; omega)
  exact absurd h12 (by omega)

/-- C3 amended: the fixed-rate timer excludes overlap only when every
timer-started cycle completes within the interval; under that assumption
(and a positive interval) no two distinct cycles are ever in flight
together.  The initial cycle may take arbitrarily long, since the timer is
only installed once it completes. -/
theorem C3_no_overlap_if_cycles_fit (interval : Nat) (dur : Nat → Nat)
    (hpos : 0 < interval) (hdur : ∀ n, 1 ≤ n → dur n ≤ interval) :
    overlapFree interval dur := by
  have key : ∀ m n t, m < n → inFlight interval dur m t →
      inFlight interval dur n t → False := by
    intro m n t hmn hm hn
    simp only [inFlight] at hm hn
    obtain ⟨hm1, hm2⟩ := hm
    obtain ⟨hn1, hn2⟩ := hn
    cases m with
    | zero =>
      obtain ⟨k, rfl⟩ : ∃ k, n = k + 1 := ⟨n - 1, by omega⟩
      simp only [cycleStart] at hm1 hm2 hn1 hn2
      have hk : interval ≤ (k + 1) * interval := Nat.le_mul_of_pos_left interval (Nat.succ_pos k)
      omega
    | succ j =>
      obtain ⟨i, rfl⟩ : ∃ i, n = i + 1 := ⟨n - 1, by omega⟩
      simp only [cycleStart] at hm1 hm2 hn1 hn2
      have hdj : dur (j + 1) ≤ interval := hdur (j + 1) (Nat.succ_le_succ (Nat.zero_le j))
      have hmul : (j + 2) * interval ≤ (i + 1) * interval :=
        Nat.mul_le_mul_right interval (by omega)
      have hsucc : (j + 2) * interval = (j + 1) * interval + interval :=
        Nat.succ_mul (j + 1) interval
      omega
  intro m n t hm hn
  rcases Nat.lt_trichotomy m n with hlt | heq | hgt
  · exact (key m n t hlt hm hn).elim
  · exact heq
  · exact (key n m t hgt hn hm).elim

/-- Witness for the amended C3 with short cycles. -/
theorem C3_no_overlap_if_cycles_fit_witness :
    overlapFree SCAN_INTERVAL_MS (fun _ => 1000) :=
  C3_no_overlap_if_cycles_fit SCAN_INTERVAL_MS (fun _ => 1000)
    (by simp [SCAN_INTERVAL_MS]) (fun n _ => by simp [SCAN_INTERVAL_MS])
